import Mathlib

/-!
Verification development for a PCF 3D-viewer control.

The source pipeline (src/My3DViewerControl/index.ts, cameraUtils.ts and the
earlier revisions under src/unnamed) parses per-record coordinate payloads,
accumulates a batch-global extent, normalizes every ring to the global
center, extrudes each ring into a solid, replaces the scene's generated
meshes, and fits the camera to the scene bounds (statically or animated).

The embedding below follows the source functions `parseCoordinates`,
`parseGeoJSON`, `createCubes`, `calculateSceneBounds`, `zoomToFitGeometry`
and `animateZoomToFit`.  JavaScript numbers are modelled as rationals
extended with NaN and the two infinities; evaluation of the payload through
`new Function('return ' + s)()` is modelled by a small expression language
containing numeric literals, array literals, and immediately-invoked
function expressions (the code-execution surface).
-/

namespace Viewer

/-- JavaScript numbers as relevant to this pipeline: `NaN`, the two
infinities, or a finite value (modelled as a rational). -/
inductive JNum where
  | nan
  | inf
  | ninf
  | fin (q : ℚ)
deriving DecidableEq

namespace JNum

/-- `Math.min`: returns NaN if either argument is NaN. -/
def jmin : JNum → JNum → JNum
  | nan, _ => nan
  | _, nan => nan
  | ninf, _ => ninf
  | _, ninf => ninf
  | inf, b => b
  | a, inf => a
  | fin a, fin b => fin (min a b)

/-- `Math.max`: returns NaN if either argument is NaN. -/
def jmax : JNum → JNum → JNum
  | nan, _ => nan
  | _, nan => nan
  | inf, _ => inf
  | _, inf => inf
  | ninf, b => b
  | a, ninf => a
  | fin a, fin b => fin (max a b)

/-- JavaScript addition on numbers. -/
def jadd : JNum → JNum → JNum
  | nan, _ => nan
  | _, nan => nan
  | inf, ninf => nan
  | ninf, inf => nan
  | inf, _ => inf
  | _, inf => inf
  | ninf, _ => ninf
  | _, ninf => ninf
  | fin a, fin b => fin (a + b)

/-- JavaScript negation on numbers. -/
def jneg : JNum → JNum
  | nan => nan
  | inf => ninf
  | ninf => inf
  | fin a => fin (-a)

/-- JavaScript subtraction on numbers. -/
def jsub (a b : JNum) : JNum := jadd a (jneg b)

/-- JavaScript multiplication on numbers. -/
def jmul : JNum → JNum → JNum
  | nan, _ => nan
  | _, nan => nan
  | inf, inf => inf
  | inf, ninf => ninf
  | ninf, inf => ninf
  | ninf, ninf => inf
  | inf, fin b => if 0 < b then inf else if b < 0 then ninf else nan
  | fin a, inf => if 0 < a then inf else if a < 0 then ninf else nan
  | ninf, fin b => if 0 < b then ninf else if b < 0 then inf else nan
  | fin a, ninf => if 0 < a then ninf else if a < 0 then inf else nan
  | fin a, fin b => fin (a * b)

/-- Division by the literal 2, as used for the extent midpoint. -/
def jhalf : JNum → JNum
  | nan => nan
  | inf => inf
  | ninf => ninf
  | fin a => fin (a / 2)

end JNum

/-- A JavaScript value produced by evaluating a coordinate payload:
a number, an array, or `undefined` (out-of-range index results). -/
inductive JSVal where
  | num (n : JNum)
  | arr (vs : List JSVal)
  | undefined

/-- `Array.isArray`. -/
def JSVal.isArray : JSVal → Bool
  | .arr _ => true
  | _ => false

/-- Indexing `v[i]`: arrays give the element or `undefined` out of range;
numbers (auto-boxed) give `undefined`; indexing `undefined` itself throws a
TypeError, modelled as `.error`. -/
def jsIndexE : JSVal → ℕ → Except Unit JSVal
  | .undefined, _ => .error ()
  | .arr vs, i => .ok (vs.getD i .undefined)
  | .num _, _ => .ok .undefined

/-- JavaScript `ToNumber` coercion as applied by `Math.min`/`Math.max` and
the arithmetic operators: numbers are themselves, `undefined` is NaN, and an
array goes through its string form — empty array to 0, a singleton to the
coercion of its element, longer arrays to NaN.  (The corner `[undefined]`,
which full JavaScript sends to 0, is modelled as NaN; no claim depends on
it.) -/
def toNumber : JSVal → JNum
  | .num n => n
  | .undefined => .nan
  | .arr [] => .fin 0
  | .arr [v] => toNumber v
  | .arr (_ :: _ :: _) => .nan

/-- The fragment of JavaScript expressions flowing through
`new Function('return ' + payload)()` that the development models: numeric
literals, array literals, and immediately-invoked function expressions
(an arrow function built and called in place, standing for the arbitrary
code the Function constructor will run). -/
inductive JSExpr where
  | num (q : ℚ)
  | arr (es : List JSExpr)
  | iife (body : JSExpr)

mutual

/-- Evaluation of a payload expression, as the Function constructor performs
it.  Every subexpression is evaluated; an IIFE runs its body. -/
def evalJS : JSExpr → JSVal
  | .num q => .num (.fin q)
  | .arr es => .arr (evalList es)
  | .iife b => evalJS b

/-- Evaluation of the element list of an array literal. -/
def evalList : List JSExpr → List JSVal
  | [] => []
  | e :: es => evalJS e :: evalList es

end

mutual

/-- Whether evaluating the expression executes code (runs a function) rather
than merely building structural data. -/
def execsCode : JSExpr → Bool
  | .num _ => false
  | .arr es => execsCodeList es
  | .iife _ => true

/-- Whether evaluating any element of the list executes code. -/
def execsCodeList : List JSExpr → Bool
  | [] => false
  | e :: es => execsCode e || execsCodeList es

end

mutual

/-- Whether the expression is a well-formed structural literal (built from
numeric and array literals only — the numeric-array-literal grammar the
specification demands, closed under nesting). -/
def isStructuralLiteral : JSExpr → Bool
  | .num _ => true
  | .arr es => isStructuralLiteralList es
  | .iife _ => false

/-- Whether every element of the list is a structural literal. -/
def isStructuralLiteralList : List JSExpr → Bool
  | [] => true
  | e :: es => isStructuralLiteral e && isStructuralLiteralList es

end

/-- The outer-ring extraction shared by both passes of `createCubes`
(index.ts lines 284-285 and 313-314):
`Array.isArray(coordinates[0][0]) ? coordinates[0] : coordinates`, followed
by iterating the result with `.forEach`/`.map` (which throws on a
non-array).  A thrown TypeError is `.error`. -/
def extractPolygonCoords (v : JSVal) : Except Unit (List JSVal) := do
  let c0 ← jsIndexE v 0
  let c00 ← jsIndexE c0 0
  let pc := if c00.isArray then c0 else v
  match pc with
  | .arr vs => .ok vs
  | _ => .error ()

/-- A dataset record as consumed by `createCubes`: the formatted
'Color Hex' value (`none` when null or empty), the 'Coordinates' payload as
the JavaScript expression that `new Function` builds from it (`none` when
the payload is not syntactically valid JavaScript, so the constructor
throws), and the 'Floors' value as `parseFloat` reads it. -/
structure SpatialRecord where
  colorHex : Option String
  coordinates : Option JSExpr
  floors : JNum

/-- The parsed outer ring of a record, or `none` when the Function
constructor, evaluation, or ring extraction throws (the catch blocks at
index.ts lines 295-297 and 348-350). -/
def recordParsedCoords (r : SpatialRecord) : Option (List JSVal) :=
  match r.coordinates with
  | none => none
  | some e => (extractPolygonCoords (evalJS e)).toOption

/-- The running global extent of the first pass of `createCubes`
(lines 274-275): min/max longitude and latitude. -/
structure Extent where
  minLon : JNum
  maxLon : JNum
  minLat : JNum
  maxLat : JNum
deriving DecidableEq

/-- The initial accumulator `Infinity, -Infinity, Infinity, -Infinity`. -/
def initExtent : Extent := ⟨.inf, .ninf, .inf, .ninf⟩

/-- One coordinate's contribution to the extent (lines 287-294): only
arrays of length at least 2 contribute, via `Math.min`/`Math.max` on their
first two entries. -/
def extentStepCoord (acc : Extent) (c : JSVal) : Extent :=
  match c with
  | .arr vs =>
    if 2 ≤ vs.length then
      ⟨acc.minLon.jmin (toNumber (vs.getD 0 .undefined)),
       acc.maxLon.jmax (toNumber (vs.getD 0 .undefined)),
       acc.minLat.jmin (toNumber (vs.getD 1 .undefined)),
       acc.maxLat.jmax (toNumber (vs.getD 1 .undefined))⟩
    else acc
  | _ => acc

/-- One record's contribution to the extent (first pass body, lines
278-298): missing records and records whose payload fails to parse are
skipped. -/
def recordExtentStep (acc : Extent) (r? : Option SpatialRecord) : Extent :=
  match r? with
  | none => acc
  | some r =>
    match recordParsedCoords r with
    | none => acc
    | some cs => cs.foldl extentStepCoord acc

/-- The batch-global extent (first pass of `createCubes`). -/
def globalExtent (batch : List (Option SpatialRecord)) : Extent :=
  batch.foldl recordExtentStep initExtent

/-- The scale constant converting input degrees to scene units
(line 302: `const scale = 100000`). -/
def sceneScale : JNum := .fin 100000

/-- The batch-global center longitude (line 300). -/
def batchCenterLon (batch : List (Option SpatialRecord)) : JNum :=
  ((globalExtent batch).minLon.jadd (globalExtent batch).maxLon).jhalf

/-- The batch-global center latitude (line 301). -/
def batchCenterLat (batch : List (Option SpatialRecord)) : JNum :=
  ((globalExtent batch).minLat.jadd (globalExtent batch).maxLat).jhalf

/-- The extrusion settings of a generated solid (lines 331-337). -/
structure ExtrudeSettings where
  depth : ℚ
  bevelEnabled : Bool
  bevelThickness : ℚ
  bevelSize : ℚ
  bevelSegments : ℕ
deriving DecidableEq

/-- The constant settings used for every record: depth 0.1, bevel 0.1/0.1
with 2 segments. -/
def cubeExtrudeSettings : ExtrudeSettings := ⟨1/10, true, 1/10, 1/10, 2⟩

/-- A generated solid as `createCubes` builds it: the normalized shape
points, the extrusion settings, and the material color. -/
structure Mesh where
  points : List (JNum × JNum)
  settings : ExtrudeSettings
  color : String
deriving DecidableEq

/-- `parseFloat(record.getFormattedValue('Floors')) || 1` (line 310): NaN
and 0 fall back to 1. -/
def floorsValue : JNum → JNum
  | .nan => .fin 1
  | .fin q => if q = 0 then .fin 1 else .fin q
  | n => n

/-- `record.getFormattedValue('Color Hex') || '#FF5733'` (line 308). -/
def colorOf (r : SpatialRecord) : String :=
  match r.colorHex with
  | none => "#FF5733"
  | some "" => "#FF5733"
  | some c => c

/-- `Array.prototype.map` with a callback that may throw: the first thrown
error aborts the whole map. -/
def exceptMap (f : α → Except Unit β) : List α → Except Unit (List β)
  | [] => .ok []
  | x :: xs => do
    let y ← f x
    let ys ← exceptMap f xs
    .ok (y :: ys)

/-- One point of the second-pass normalization (lines 322-326):
`x = (coord[0] - globalCenterLon) * scale`, `y = (coord[1] -
globalCenterLat) * scale`. -/
def normalizePoint (cLon cLat : JNum) (c : JSVal) : Except Unit (JNum × JNum) := do
  let x ← jsIndexE c 0
  let y ← jsIndexE c 1
  .ok ((toNumber x).jsub cLon |>.jmul sceneScale,
       (toNumber y).jsub cLat |>.jmul sceneScale)

/-- The second pass of `createCubes` for one record (lines 304-351): the
'Floors' value is parsed (line 310) but never used; rings with fewer than 3
points are skipped; the ring is normalized to the global center and extruded
with the constant settings. -/
def buildMesh (cLon cLat : JNum) (r : SpatialRecord) : Option Mesh :=
  let _floors := floorsValue r.floors
  match recordParsedCoords r with
  | none => none
  | some cs =>
    if cs.length < 3 then none
    else
      match exceptMap (normalizePoint cLon cLat) cs with
      | .error _ => none
      | .ok pts => some ⟨pts, cubeExtrudeSettings, colorOf r⟩

/-- The geometry pipeline of `createCubes` (both passes over the batch):
global extent and center, then one extruded mesh per record whose payload
parses with at least 3 ring points.  Scene attachment and the camera fit
are modelled separately below. -/
def createCubesMeshes (batch : List (Option SpatialRecord)) : List Mesh :=
  batch.filterMap (fun r? => r?.bind (buildMesh (batchCenterLon batch) (batchCenterLat batch)))

/-- One point of the map inside `parseCoordinates` (index.ts lines 236-246):
a coordinate that is not an array of length at least 2 throws
(`Invalid coordinate format`), aborting the record; otherwise the point is
translated by the per-record center and scaled. -/
def strictPoint (cLon cLat : JNum) (c : JSVal) : Except Unit (JNum × JNum) :=
  match c with
  | .arr vs =>
    if 2 ≤ vs.length then
      .ok ((toNumber (vs.getD 0 .undefined)).jsub cLon |>.jmul sceneScale,
           (toNumber (vs.getD 1 .undefined)).jsub cLat |>.jmul sceneScale)
    else .error ()
  | _ => .error ()

/-- `parseCoordinates` (index.ts lines 200-251): evaluates the payload with
the Function constructor, rejects non-arrays and empty arrays, extracts the
outer ring, rejects rings of fewer than 3 points, computes the PER-RECORD
bounds center, and maps every coordinate to a translated, scaled point.
Any thrown error is caught and reported as `none`. -/
def parseCoordinates (payload : Option JSExpr) : Option (List (JNum × JNum)) :=
  match payload with
  | none => none
  | some e =>
    match evalJS e with
    | .arr [] => none
    | .arr (v0 :: vrest) =>
      match extractPolygonCoords (.arr (v0 :: vrest)) with
      | .error _ => none
      | .ok pc =>
        if pc.length < 3 then none
        else
          let ext := pc.foldl extentStepCoord initExtent
          let cLon := (ext.minLon.jadd ext.maxLon).jhalf
          let cLat := (ext.minLat.jadd ext.maxLat).jhalf
          match exceptMap (strictPoint cLon cLat) pc with
          | .error _ => none
          | .ok pts => some pts
    | _ => none

/-- A parsed GeoJSON value as consumed by `parseGeoJSON`
(src/unnamed/part_000 lines 40-61): the `type` tag and the `coordinates`
array of rings, each ring a list of positions (arrays of numbers).
`JSON.parse` failures and non-object payloads are modelled by feeding
`none` to the function; a missing `coordinates` field behaves like the
empty list (both return `null`). -/
structure GeoJson where
  type : String
  coordinates : List (List (List ℚ))

/-- `new THREE.Vector2(coord[0], coord[1])` on a position: missing entries
are `undefined`, modelled as NaN components. -/
def positionToVec (c : List ℚ) : JNum × JNum :=
  (match c.get? 0 with
   | some q => .fin q
   | none => .nan,
   match c.get? 1 with
   | some q => .fin q
   | none => .nan)

/-- `parseGeoJSON` (src/unnamed/part_000 lines 40-61): for a `Polygon` with
a nonempty `coordinates` array, takes the outer ring, UNCONDITIONALLY drops
its last position (`slice(0, -1)`, on the assumption that the ring is
closed), and requires at least 3 remaining points. -/
def parseGeoJSON (g? : Option GeoJson) : Option (List (JNum × JNum)) :=
  match g? with
  | none => none
  | some g =>
    if g.type = "Polygon" then
      match g.coordinates with
      | [] => none
      | outerRing :: _ =>
        let points := outerRing.dropLast.map positionToVec
        if 3 ≤ points.length then some points else none
    else none

/-- Scene attachment and resource state for the mesh-replacement aspect of
`createCubes` (index.ts lines 260-265 and 346-347): the scene's children in
attachment order, plus the ids whose geometry and material have been
disposed.  Mesh identity is a natural-number id. -/
structure SceneState where
  children : List ℕ
  disposedGeometry : List ℕ
  disposedMaterial : List ℕ
deriving DecidableEq

/-- `scene.add(mesh)` (`THREE.Object3D.add`): an object already attached is
first removed from its parent, then appended to the children. -/
def sceneAdd (s : SceneState) (m : ℕ) : SceneState :=
  { s with children := s.children.erase m ++ [m] }

/-- Lines 261-265: `scene.remove(cube)`, `cube.geometry.dispose()`,
`cube.material.dispose()`. -/
def retireMesh (s : SceneState) (m : ℕ) : SceneState :=
  ⟨s.children.erase m, s.disposedGeometry ++ [m], s.disposedMaterial ++ [m]⟩

/-- The scene-mutation skeleton of `createCubes`: retire every mesh of the
previous call, then attach each new mesh, returning the updated scene state
and the new registry list (the function's return value, line 356). -/
def createCubesScene (s : SceneState) (existing newMeshes : List ℕ) :
    SceneState × List ℕ :=
  let s1 := existing.foldl retireMesh s
  let s2 := newMeshes.foldl sceneAdd s1
  (s2, newMeshes)

/-!  The camera-fitting side (cameraUtils.ts) works on floating-point 3D
vectors, boxes and trigonometry; it is modelled over the reals.  -/

noncomputable section
open scoped Classical

/-- A `THREE.Vector3`. -/
structure Vec3 where
  x : ℝ
  y : ℝ
  z : ℝ

/-- `a.add(b)`. -/
def vadd (a b : Vec3) : Vec3 := ⟨a.x + b.x, a.y + b.y, a.z + b.z⟩

/-- `a.sub(b)`. -/
def vsub (a b : Vec3) : Vec3 := ⟨a.x - b.x, a.y - b.y, a.z - b.z⟩

/-- `a.multiplyScalar(t)`. -/
def vsmul (t : ℝ) (a : Vec3) : Vec3 := ⟨t * a.x, t * a.y, t * a.z⟩

/-- `a.length()`. -/
def vlength (a : Vec3) : ℝ := Real.sqrt (a.x ^ 2 + a.y ^ 2 + a.z ^ 2)

/-- `a.normalize()`: `divideScalar(length || 1)` — a zero-length vector is
left unchanged. -/
def vnormalize (a : Vec3) : Vec3 :=
  vsmul (1 / (if vlength a = 0 then 1 else vlength a)) a

/-- `v.lerpVectors(v1, v2, alpha)`: componentwise `x1 + (x2 - x1) * alpha`. -/
def vlerp (a b : Vec3) (t : ℝ) : Vec3 := vadd a (vsmul t (vsub b a))

/-- A `THREE.Box3`: axis-aligned min/max corners. -/
structure Box3 where
  min : Vec3
  max : Vec3

namespace Box3

/-- `Box3.isEmpty()`: inverted on some axis. -/
def isEmpty (b : Box3) : Prop :=
  b.max.x < b.min.x ∨ b.max.y < b.min.y ∨ b.max.z < b.min.z

/-- `Box3.getCenter(target)`: the midpoint, or zero for an empty box. -/
def getCenter (b : Box3) : Vec3 :=
  if b.isEmpty then ⟨0, 0, 0⟩ else vsmul (1 / 2) (vadd b.min b.max)

/-- `Box3.getSize(target)`: the extent, or zero for an empty box. -/
def getSize (b : Box3) : Vec3 :=
  if b.isEmpty then ⟨0, 0, 0⟩ else vsub b.max b.min

/-- `Box3.union(b2)`: componentwise min of mins and max of maxes. -/
def union (a b : Box3) : Box3 :=
  ⟨⟨Min.min a.min.x b.min.x, Min.min a.min.y b.min.y, Min.min a.min.z b.min.z⟩,
   ⟨Max.max a.max.x b.max.x, Max.max a.max.y b.max.y, Max.max a.max.z b.max.z⟩⟩

/-- `Box3.expandByPoint(p)`. -/
def expandByPoint (b : Box3) (p : Vec3) : Box3 :=
  ⟨⟨Min.min b.min.x p.x, Min.min b.min.y p.y, Min.min b.min.z p.z⟩,
   ⟨Max.max b.max.x p.x, Max.max b.max.y p.y, Max.max b.max.z p.z⟩⟩

/-- The eight corners of a box, in the order `applyMatrix4` enumerates
them. -/
def corners (b : Box3) : List Vec3 :=
  [⟨b.min.x, b.min.y, b.min.z⟩, ⟨b.min.x, b.min.y, b.max.z⟩,
   ⟨b.min.x, b.max.y, b.min.z⟩, ⟨b.min.x, b.max.y, b.max.z⟩,
   ⟨b.max.x, b.min.y, b.min.z⟩, ⟨b.max.x, b.min.y, b.max.z⟩,
   ⟨b.max.x, b.max.y, b.min.z⟩, ⟨b.max.x, b.max.y, b.max.z⟩]

end Box3

/-- An affine world transform, the form every `Object3D.matrixWorld` takes
(translation-rotation-scale compositions; the projective bottom row of the
`Matrix4` is 0 0 0 1). -/
structure Affine where
  m00 : ℝ
  m01 : ℝ
  m02 : ℝ
  m10 : ℝ
  m11 : ℝ
  m12 : ℝ
  m20 : ℝ
  m21 : ℝ
  m22 : ℝ
  tx : ℝ
  ty : ℝ
  tz : ℝ

/-- `p.applyMatrix4(f)` for an affine matrix. -/
def Affine.apply (f : Affine) (p : Vec3) : Vec3 :=
  ⟨f.m00 * p.x + f.m01 * p.y + f.m02 * p.z + f.tx,
   f.m10 * p.x + f.m11 * p.y + f.m12 * p.z + f.ty,
   f.m20 * p.x + f.m21 * p.y + f.m22 * p.z + f.tz⟩

/-- The identity world transform. -/
def idAffine : Affine := ⟨1, 0, 0, 0, 1, 0, 0, 0, 1, 0, 0, 0⟩

/-- `Box3.applyMatrix4(m)`: an empty box stays empty; otherwise the box is
rebuilt from the transformed corners. -/
def Box3.applyAffine (f : Affine) (b : Box3) : Box3 :=
  if b.isEmpty then b
  else
    match b.corners.map f.apply with
    | [] => b
    | p :: ps => ps.foldl Box3.expandByPoint ⟨p, p⟩

/-- An object attached to a scene, as far as `calculateSceneBounds` can see:
a `THREE.Mesh` carries its geometry's (lazily computed) bounding box and its
world matrix, while non-mesh objects (lights, groups, control gizmos) carry
no geometry.  `isDecoration` marks helper meshes such as a reference ground
plane; the flag exists only so the specification's intent can be stated —
the code cannot observe it. -/
inductive SceneObject where
  | mesh (isDecoration : Bool) (geomBox : Option Box3) (world : Affine)
  | nonMesh

/-- The world-space bounding box `calculateSceneBounds` derives for one
object (cameraUtils.ts lines 14-23): meshes with geometry contribute their
geometry box transformed by `matrixWorld`; everything else contributes
nothing. -/
def worldBox : SceneObject → Option Box3
  | .mesh _ (some g) w => some (g.applyAffine w)
  | _ => none

/-- One traversal step of `calculateSceneBounds` (cameraUtils.ts lines
13-33): the first contributing box is copied, later ones are unioned. -/
def boundsStep (acc : Option Box3) (o : SceneObject) : Option Box3 :=
  match worldBox o with
  | none => acc
  | some wb =>
    match acc with
    | none => some wb
    | some b => some (b.union wb)

/-- `calculateSceneBounds` (cameraUtils.ts lines 9-36): traverses the scene,
copies the first contributing box and unions the rest; `null` when no mesh
with geometry was found. -/
def calculateSceneBounds (scene : List SceneObject) : Option Box3 :=
  scene.foldl boundsStep none

/-- Modelled from the spec (§4.6 and claim C6): the bounds the specification
asks for, over renderable (non-decoration) solids only. -/
def specSceneBounds (scene : List SceneObject) : Option Box3 :=
  scene.foldl
    (fun acc o =>
      match o with
      | .mesh false (some g) w =>
        match acc with
        | none => some (g.applyAffine w)
        | some b => some (b.union (g.applyAffine w))
      | _ => acc)
    none

/-- The union of a list of boxes, `none` for the empty list — the
mathematical form the bounds traversal should equal. -/
def unionBoxes : List Box3 → Option Box3
  | [] => none
  | b :: bs => some (bs.foldl Box3.union b)

/-- A perspective camera as the fit mutates it: position, the last look-at
point (standing for the orientation), and the field of view in degrees. -/
structure PCamera where
  position : Vec3
  lookTarget : Vec3
  fov : ℝ

/-- The orbit controls as the fit mutates them. -/
structure OControls where
  target : Vec3

/-- `controls.update()`: re-orients the camera toward the control target. -/
def controlsUpdate (cam : PCamera) (ctrl : OControls) : PCamera :=
  { cam with lookTarget := ctrl.target }

/-- `zoomToFitGeometry` (cameraUtils.ts lines 45-85): no-op when the scene
bounds are missing or empty; otherwise places the camera at
`center + normalize((1, 0.8, 1)) * ((maxDim/2) / tan(fovRad/2) * padding)`,
looks at the center, and sets the control target to the center. -/
def zoomToFitGeometry (camera : PCamera) (controls : OControls)
    (scene : List SceneObject) (fitPadding : ℝ) : PCamera × OControls :=
  match calculateSceneBounds scene with
  | none => (camera, controls)
  | some bounds =>
    if bounds.isEmpty then (camera, controls)
    else
      let center := bounds.getCenter
      let size := bounds.getSize
      let maxDimension := max size.x (max size.y size.z)
      let fov := camera.fov * (Real.pi / 180)
      let distance := (maxDimension / 2) / Real.tan (fov / 2)
      let paddedDistance := distance * fitPadding
      let cameraDirection := vnormalize ⟨1, 4/5, 1⟩
      let newCameraPosition := vadd center (vsmul paddedDistance cameraDirection)
      let cam1 : PCamera :=
        { camera with position := newCameraPosition, lookTarget := center }
      let ctrl1 : OControls := { controls with target := center }
      (controlsUpdate cam1 ctrl1, ctrl1)

/-- One frame of `animateZoomToFit` (cameraUtils.ts lines 95-147) at
interpolation value `progress = min(elapsed/duration, 1)`: `none` when the
bounds guard fires; otherwise the camera position and control target are
eased (cubic ease-out) from the captured start state toward the same target
position and center the static fit computes, and `controls.update()` is
re-applied. -/
def animateZoomToFitAt (camera : PCamera) (controls : OControls)
    (scene : List SceneObject) (fitPadding : ℝ) (progress : ℝ) :
    Option (PCamera × OControls) :=
  match calculateSceneBounds scene with
  | none => none
  | some bounds =>
    if bounds.isEmpty then none
    else
      let center := bounds.getCenter
      let size := bounds.getSize
      let maxDimension := max size.x (max size.y size.z)
      let fov := camera.fov * (Real.pi / 180)
      let distance := (maxDimension / 2) / Real.tan (fov / 2)
      let paddedDistance := distance * fitPadding
      let cameraDirection := vnormalize ⟨1, 4/5, 1⟩
      let targetPosition := vadd center (vsmul paddedDistance cameraDirection)
      let startPosition := camera.position
      let startTarget := controls.target
      let easeProgress := 1 - (1 - progress) ^ 3
      let cam1 : PCamera :=
        { camera with position := vlerp startPosition targetPosition easeProgress }
      let ctrl1 : OControls :=
        { controls with target := vlerp startTarget center easeProgress }
      some (controlsUpdate cam1 ctrl1, ctrl1)

end

/-!  Concrete payloads and records used by the claim theorems.  -/

open JSExpr in
/-- The payload string `(() => [[0,0],[10,0],[10,10]])()`: a valid
JavaScript expression — not a numeric-array literal — whose evaluation runs
an arrow function that returns a plausible coordinate array. -/
def evilPayload : JSExpr :=
  iife (arr [arr [num 0, num 0], arr [num 10, num 0], arr [num 10, num 10]])

/-- A record carrying the IIFE payload. -/
def evilRecord : SpatialRecord := ⟨none, some evilPayload, .nan⟩

open JSExpr in
/-- The payload `[[0,0],[10,0],[10,10],[0,10],[0,0]]`: the spec scenario's
self-closing square ring. -/
def squarePayload : JSExpr :=
  arr [arr [num 0, num 0], arr [num 10, num 0], arr [num 10, num 10],
       arr [num 0, num 10], arr [num 0, num 0]]

/-- A record with the square payload and a green color. -/
def squareRecord : SpatialRecord := ⟨some "#00FF00", some squarePayload, .fin 3⟩

/-- A record whose payload is not syntactically valid JavaScript, so the
Function constructor throws and parsing fails. -/
def unparsableRecord : SpatialRecord := ⟨none, none, .nan⟩

/-- C1: the coordinate parsing step does NOT treat the payload as
structural data only: the IIFE payload is not a well-formed numeric-array
literal, evaluating it executes code, and yet `createCubes` accepts it and
generates a solid from its return value instead of rejecting it.  (The
spec states the reject-never-execute behaviour as a hard requirement and
flags the observed `new Function` pattern as the defect, so this is a code
bug, not a spec error.) -/
theorem function_constructor_executes_payload :
    isStructuralLiteral evilPayload = false
    ∧ execsCode evilPayload = true
    ∧ (recordParsedCoords evilRecord).isSome = true
    ∧ (createCubesMeshes [some evilRecord]).length = 1 := by
  refine ⟨rfl, rfl, rfl, rfl⟩

/-- C3: a record whose coordinate payload fails to parse contributes
nothing to the batch-global extent and does not abort the batch: extent and
generated meshes are exactly those of the batch with the failing record
removed, wherever in the batch it sits. -/
theorem parse_failure_contributes_nothing
    (pre post : List (Option SpatialRecord)) (r : SpatialRecord)
    (hfail : recordParsedCoords r = none) :
    globalExtent (pre ++ some r :: post) = globalExtent (pre ++ post)
    ∧ createCubesMeshes (pre ++ some r :: post) = createCubesMeshes (pre ++ post) := by
  have hstep : ∀ acc : Extent, recordExtentStep acc (some r) = acc := by
    intro acc
    simp [recordExtentStep, hfail]
  have hext : globalExtent (pre ++ some r :: post) = globalExtent (pre ++ post) := by
    unfold globalExtent
    rw [List.foldl_append, List.foldl_append, List.foldl_cons, hstep]
  have hbuild : ∀ c1 c2 : JNum, buildMesh c1 c2 r = none := by
    intro c1 c2
    simp [buildMesh, hfail]
  refine ⟨hext, ?_⟩
  unfold createCubesMeshes
  rw [batchCenterLon, batchCenterLat, hext, ← batchCenterLon, ← batchCenterLat]
  rw [List.filterMap_append, List.filterMap_append, List.filterMap_cons]
  simp [hbuild]

/-- Witness for C3 at the spec's own scenario: a batch of the self-closing
square record plus one unparsable record has the extent and the single mesh
of the square record alone. -/
theorem parse_failure_contributes_nothing_witness :
    globalExtent ([some squareRecord] ++ some unparsableRecord :: [])
      = globalExtent ([some squareRecord] ++ [])
    ∧ createCubesMeshes ([some squareRecord] ++ some unparsableRecord :: [])
      = createCubesMeshes ([some squareRecord] ++ []) :=
  parse_failure_contributes_nothing [some squareRecord] [] unparsableRecord rfl

/-- Parsing a record never looks at its 'Floors' value. -/
theorem recordParsedCoords_setFloors (r : SpatialRecord) (f : JNum) :
    recordParsedCoords { r with floors := f } = recordParsedCoords r := by
  cases r
  rfl

/-- Mesh construction never looks at the record's 'Floors' value (it is
parsed and then dropped). -/
theorem buildMesh_setFloors (c1 c2 : JNum) (r : SpatialRecord) (f : JNum) :
    buildMesh c1 c2 { r with floors := f } = buildMesh c1 c2 r := by
  cases r
  rfl

/-- The extent accumulation never looks at a record's 'Floors' value. -/
theorem recordExtentStep_setFloors (acc : Extent) (r : SpatialRecord) (f : JNum) :
    recordExtentStep acc (some { r with floors := f })
      = recordExtentStep acc (some r) := by
  cases r
  rfl

/-- Every mesh the pipeline generates carries the constant extrusion
settings (depth 0.1, bevel 0.1/0.1, 2 segments). -/
theorem buildMesh_settings (c1 c2 : JNum) (r : SpatialRecord) (m : Mesh)
    (h : buildMesh c1 c2 r = some m) : m.settings = cubeExtrudeSettings := by
  rcases hp : recordParsedCoords r with _ | cs
  · simp only [buildMesh, hp] at h
    exact absurd h (by simp)
  simp only [buildMesh, hp] at h
  split at h
  · exact absurd h (by simp)
  · split at h
    · exact absurd h (by simp)
    · cases h
      rfl

/-- C10: the extrusion depth is the constant 0.1 regardless of the record's
'Floors' attribute — changing only the 'Floors' value of a record changes
nothing in the generated geometry, and every generated mesh has depth
0.1. -/
theorem floors_never_affects_geometry
    (pre post : List (Option SpatialRecord)) (r : SpatialRecord) (f₁ f₂ : JNum) :
    createCubesMeshes (pre ++ some { r with floors := f₁ } :: post)
      = createCubesMeshes (pre ++ some { r with floors := f₂ } :: post)
    ∧ ∀ m ∈ createCubesMeshes (pre ++ some { r with floors := f₁ } :: post),
        m.settings.depth = 1 / 10 := by
  have hext : globalExtent (pre ++ some { r with floors := f₁ } :: post)
      = globalExtent (pre ++ some { r with floors := f₂ } :: post) := by
    unfold globalExtent
    rw [List.foldl_append, List.foldl_append, List.foldl_cons, List.foldl_cons,
      recordExtentStep_setFloors _ r f₁, recordExtentStep_setFloors _ r f₂]
  constructor
  · unfold createCubesMeshes
    rw [batchCenterLon, batchCenterLat, hext, ← batchCenterLon, ← batchCenterLat]
    rw [List.filterMap_append, List.filterMap_append, List.filterMap_cons,
      List.filterMap_cons]
    simp only [Option.some_bind, buildMesh_setFloors]
  · intro m hm
    rcases List.mem_filterMap.mp hm with ⟨r?, _, hr⟩
    rcases r? with _ | r'
    · exact absurd hr (by simp)
    · simp only [Option.some_bind] at hr
      rw [buildMesh_settings _ _ _ _ hr]
      rfl

/-- Witness for C10: two copies of the square record differing only in
'Floors' (3 versus 7) generate identical meshes, whose depth is 0.1. -/
theorem floors_never_affects_geometry_witness :
    createCubesMeshes ([] ++ some { squareRecord with floors := .fin 3 } :: [])
      = createCubesMeshes ([] ++ some { squareRecord with floors := .fin 7 } :: [])
    ∧ (createCubesMeshes ([] ++ some { squareRecord with floors := .fin 3 } :: [])).map
        (fun m => m.settings.depth) = [1 / 10] :=
  ⟨(floors_never_affects_geometry [] [] squareRecord (.fin 3) (.fin 7)).1, rfl⟩

/-- Normalization of a ring whose coordinates all read back finite numbers:
every point becomes `((x - cLon) * 100000, (y - cLat) * 100000)`. -/
theorem exceptMap_normalize (a b : ℚ) (cs : List JSVal) (pts : List (ℚ × ℚ))
    (h : List.Forall₂ (fun cv (p : ℚ × ℚ) =>
        (jsIndexE cv 0).map toNumber = .ok (.fin p.1)
        ∧ (jsIndexE cv 1).map toNumber = .ok (.fin p.2)) cs pts) :
    exceptMap (normalizePoint (.fin a) (.fin b)) cs
      = .ok (pts.map fun p =>
          (JNum.fin ((p.1 - a) * 100000), JNum.fin ((p.2 - b) * 100000))) := by
  induction h with
  | nil => rfl
  | @cons cv p cs' pts' hcp _ ih =>
    obtain ⟨h0, h1⟩ := hcp
    rcases e0 : jsIndexE cv 0 with u | xv
    · rw [e0] at h0
      exact absurd h0 (by simp [Except.map])
    rcases e1 : jsIndexE cv 1 with u | yv
    · rw [e1] at h1
      exact absurd h1 (by simp [Except.map])
    rw [e0] at h0
    rw [e1] at h1
    have hx : toNumber xv = .fin p.1 := by simpa [Except.map] using h0
    have hy : toNumber yv = .fin p.2 := by simpa [Except.map] using h1
    have hhx : ((JNum.fin p.1).jsub (JNum.fin a)).jmul sceneScale
        = JNum.fin ((p.1 - a) * 100000) := by
      simp only [JNum.jsub, JNum.jadd, JNum.jneg, JNum.jmul, sceneScale,
        JNum.fin.injEq]
      ring
    have hhy : ((JNum.fin p.2).jsub (JNum.fin b)).jmul sceneScale
        = JNum.fin ((p.2 - b) * 100000) := by
      simp only [JNum.jsub, JNum.jadd, JNum.jneg, JNum.jmul, sceneScale,
        JNum.fin.injEq]
      ring
    simp only [exceptMap, normalizePoint, e0, e1, ih, List.map_cons, bind,
      Except.bind, hx, hy, hhx, hhy]

/-- C2: each normalized point of a parseable record's ring is
`((x - centerX) * 100000, (y - centerY) * 100000)` for the midpoint of the
BATCH-global extent — not a per-record center — and the resulting mesh is
among the batch's generated meshes. -/
theorem normalization_uses_global_center
    (batch : List (Option SpatialRecord)) (r : SpatialRecord)
    (cs : List JSVal) (pts : List (ℚ × ℚ)) (a b c d : ℚ)
    (hmem : some r ∈ batch)
    (hparse : recordParsedCoords r = some cs)
    (hlen : 3 ≤ cs.length)
    (hnum : List.Forall₂ (fun cv (p : ℚ × ℚ) =>
        (jsIndexE cv 0).map toNumber = .ok (.fin p.1)
        ∧ (jsIndexE cv 1).map toNumber = .ok (.fin p.2)) cs pts)
    (hext : globalExtent batch = ⟨.fin a, .fin b, .fin c, .fin d⟩) :
    buildMesh (batchCenterLon batch) (batchCenterLat batch) r
      = some ⟨pts.map (fun p =>
            (JNum.fin ((p.1 - (a + b) / 2) * 100000),
             JNum.fin ((p.2 - (c + d) / 2) * 100000))),
          cubeExtrudeSettings, colorOf r⟩
    ∧ (⟨pts.map (fun p =>
            (JNum.fin ((p.1 - (a + b) / 2) * 100000),
             JNum.fin ((p.2 - (c + d) / 2) * 100000))),
          cubeExtrudeSettings, colorOf r⟩ : Mesh) ∈ createCubesMeshes batch := by
  have hLon : batchCenterLon batch = .fin ((a + b) / 2) := by
    rw [batchCenterLon, hext]
    rfl
  have hLat : batchCenterLat batch = .fin ((c + d) / 2) := by
    rw [batchCenterLat, hext]
    rfl
  have hb : buildMesh (batchCenterLon batch) (batchCenterLat batch) r
      = some ⟨pts.map (fun p =>
            (JNum.fin ((p.1 - (a + b) / 2) * 100000),
             JNum.fin ((p.2 - (c + d) / 2) * 100000))),
          cubeExtrudeSettings, colorOf r⟩ := by
    rw [hLon, hLat]
    simp only [buildMesh, hparse]
    rw [if_neg (by omega), exceptMap_normalize _ _ cs pts hnum]
  exact ⟨hb, List.mem_filterMap.mpr ⟨some r, hmem, by simp [hb]⟩⟩

/-- The parsed coordinate values of the square payload. -/
def squareCoordsVals : List JSVal :=
  [.arr [.num (.fin 0), .num (.fin 0)], .arr [.num (.fin 10), .num (.fin 0)],
   .arr [.num (.fin 10), .num (.fin 10)], .arr [.num (.fin 0), .num (.fin 10)],
   .arr [.num (.fin 0), .num (.fin 0)]]

/-- The square ring as rational pairs. -/
def squarePts : List (ℚ × ℚ) := [(0, 0), (10, 0), (10, 10), (0, 10), (0, 0)]

/-- Witness for C2: in the batch of the square record and an unparsable
record, the square's mesh points are its coordinates translated by the
global center (5, 5) and scaled by 100000. -/
theorem normalization_uses_global_center_witness :
    buildMesh (batchCenterLon [some squareRecord, some unparsableRecord])
        (batchCenterLat [some squareRecord, some unparsableRecord]) squareRecord
      = some ⟨squarePts.map (fun p =>
            (JNum.fin ((p.1 - (0 + 10) / 2) * 100000),
             JNum.fin ((p.2 - (0 + 10) / 2) * 100000))),
          cubeExtrudeSettings, colorOf squareRecord⟩
    ∧ (⟨squarePts.map (fun p =>
            (JNum.fin ((p.1 - (0 + 10) / 2) * 100000),
             JNum.fin ((p.2 - (0 + 10) / 2) * 100000))),
          cubeExtrudeSettings, colorOf squareRecord⟩ : Mesh)
        ∈ createCubesMeshes [some squareRecord, some unparsableRecord] :=
  normalization_uses_global_center
    [some squareRecord, some unparsableRecord] squareRecord
    squareCoordsVals squarePts 0 10 0 10
    (List.mem_cons_self _ _) rfl (by decide)
    (.cons ⟨rfl, rfl⟩ (.cons ⟨rfl, rfl⟩ (.cons ⟨rfl, rfl⟩
      (.cons ⟨rfl, rfl⟩ (.cons ⟨rfl, rfl⟩ .nil))))) rfl

/-- The value a flat coordinate pair evaluates to. -/
def pairVal (p : ℚ × ℚ) : JSVal := .arr [.num (.fin p.1), .num (.fin p.2)]

/-- A flat numeric-array-literal payload `[[x1,y1],[x2,y2],…]`. -/
def flatPairsExpr (qs : List (ℚ × ℚ)) : JSExpr :=
  .arr (qs.map fun p => .arr [.num p.1, .num p.2])

/-- Evaluating a flat pairs payload yields the corresponding value list. -/
theorem evalJS_flatPairs (qs : List (ℚ × ℚ)) :
    evalJS (flatPairsExpr qs) = .arr (qs.map pairVal) := by
  unfold flatPairsExpr
  simp only [evalJS]
  congr 1
  induction qs with
  | nil => rfl
  | cons p qs ih =>
    simp only [List.map_cons, evalList, evalJS, ih]
    rfl

/-- Mapping `strictPoint` over well-formed pair values never throws. -/
theorem exceptMap_strict (qs : List (ℚ × ℚ)) (c1 c2 : JNum) :
    exceptMap (strictPoint c1 c2) (qs.map pairVal)
      = .ok (qs.map fun p =>
          ((JNum.fin p.1).jsub c1 |>.jmul sceneScale,
           (JNum.fin p.2).jsub c2 |>.jmul sceneScale)) := by
  induction qs with
  | nil => rfl
  | cons p qs ih =>
    simp only [List.map_cons, exceptMap, strictPoint, pairVal, ih, bind,
      Except.bind]
    rfl

/-- The open 4-point square ring (first point not repeated at the end). -/
def openRing : List (List ℚ) := [[0, 0], [10, 0], [10, 10], [0, 10]]

/-- Counterexample to C7: a valid Polygon payload listing 4 points without
repeating the first as its last element parses to 3 points, not the 4 the
claim requires — `parseGeoJSON` drops the last point unconditionally. -/
theorem parseGeoJSON_drops_nonrepeated_last :
    openRing.length = 4
    ∧ openRing.head? ≠ openRing.getLast?
    ∧ (parseGeoJSON (some ⟨"Polygon", [openRing]⟩)).map List.length = some 3 :=
  ⟨rfl, by decide, rfl⟩

/-- C7 (amended): `parseGeoJSON` returns N-1 points for every N-position
outer ring with at least 4 positions, whether or not the last repeats the
first; `parseCoordinates` never removes a closing point and returns exactly
N points for every flat numeric-pair payload of N ≥ 3 points. -/
theorem ring_point_counts (g : GeoJson) (ring : List (List ℚ))
    (rest : List (List (List ℚ))) (qs : List (ℚ × ℚ))
    (hty : g.type = "Polygon") (hc : g.coordinates = ring :: rest)
    (hn : 4 ≤ ring.length) (hq : 3 ≤ qs.length) :
    (parseGeoJSON (some g)).map List.length = some (ring.length - 1)
    ∧ (parseCoordinates (some (flatPairsExpr qs))).map List.length
        = some qs.length := by
  constructor
  · have hlen : (ring.dropLast.map positionToVec).length = ring.length - 1 := by
      rw [List.length_map, List.length_dropLast]
    simp only [parseGeoJSON, hty, hc, if_true, hlen]
    rw [if_pos (by omega)]
    simp [hlen]
  · rcases qs with _ | ⟨q0, qrest⟩
    · exact absurd hq (by simp)
    · have he := evalJS_flatPairs (q0 :: qrest)
      rw [List.map_cons] at he
      have hex : extractPolygonCoords (.arr (pairVal q0 :: qrest.map pairVal))
          = .ok (pairVal q0 :: qrest.map pairVal) := rfl
      have hmap := exceptMap_strict (q0 :: qrest)
      simp only [List.map_cons] at hmap
      simp only [parseCoordinates, he, hex]
      rw [if_neg (by simp at hq ⊢; omega)]
      rw [hmap]
      simp

/-- The closed 5-position square ring of the spec scenario. -/
def closedRing : List (List ℚ) := [[0, 0], [10, 0], [10, 10], [0, 10], [0, 0]]

/-- The same closed square as flat rational pairs. -/
def closedPairs : List (ℚ × ℚ) := [(0, 0), (10, 0), (10, 10), (0, 10), (0, 0)]

/-- Witness for the amended C7 at the closed square: `parseGeoJSON` returns
4 of the 5 positions, `parseCoordinates` returns all 5. -/
theorem ring_point_counts_witness :
    (parseGeoJSON (some ⟨"Polygon", [closedRing]⟩)).map List.length
      = some (closedRing.length - 1)
    ∧ (parseCoordinates (some (flatPairsExpr closedPairs))).map List.length
      = some closedPairs.length :=
  ring_point_counts ⟨"Polygon", [closedRing]⟩ closedRing [] closedPairs
    rfl rfl (by decide) (by decide)

/-- Attaching a list of fresh, distinct meshes appends them to the scene's
children and touches nothing else. -/
theorem foldl_sceneAdd (xs : List ℕ) (s : SceneState)
    (hnd : xs.Nodup) (hfresh : ∀ x ∈ xs, x ∉ s.children) :
    xs.foldl sceneAdd s
      = ⟨s.children ++ xs, s.disposedGeometry, s.disposedMaterial⟩ := by
  induction xs generalizing s with
  | nil => simp
  | cons x xs ih =>
    rw [List.foldl_cons]
    have hx : sceneAdd s x
        = ⟨s.children ++ [x], s.disposedGeometry, s.disposedMaterial⟩ := by
      simp [sceneAdd, List.erase_of_not_mem (hfresh x (by simp))]
    have hf : ∀ y ∈ xs, y ∉ s.children ++ [x] := by
      intro y hy
      simp only [List.mem_append, List.mem_singleton]
      push_neg
      exact ⟨hfresh y (List.mem_cons_of_mem x hy),
        fun hyx => (List.nodup_cons.mp hnd).1 (hyx ▸ hy)⟩
    rw [hx, ih ⟨s.children ++ [x], s.disposedGeometry, s.disposedMaterial⟩
      (List.nodup_cons.mp hnd).2 hf]
    simp

/-- Retiring a list of distinct meshes that sit, in order, at the tail of
the children removes exactly them and records their disposal. -/
theorem foldl_retireMesh (xs : List ℕ) (s : SceneState) (pre : List ℕ)
    (hnd : xs.Nodup) (hfresh : ∀ x ∈ xs, x ∉ pre)
    (hch : s.children = pre ++ xs) :
    xs.foldl retireMesh s
      = ⟨pre, s.disposedGeometry ++ xs, s.disposedMaterial ++ xs⟩ := by
  induction xs generalizing s with
  | nil =>
    rw [List.foldl_nil, List.append_nil, List.append_nil]
    rw [List.append_nil] at hch
    rw [← hch]
  | cons x xs ih =>
    rw [List.foldl_cons]
    have hx : retireMesh s x
        = ⟨pre ++ xs, s.disposedGeometry ++ [x], s.disposedMaterial ++ [x]⟩ := by
      simp only [retireMesh, hch]
      rw [List.erase_append_right _ (hfresh x (by simp)), List.erase_cons_head]
    rw [hx, ih ⟨pre ++ xs, s.disposedGeometry ++ [x], s.disposedMaterial ++ [x]⟩
      (List.nodup_cons.mp hnd).2 (fun y hy => hfresh y (List.mem_cons_of_mem x hy)) rfl]
    simp

/-- C5: after `replace(A)` then `replace(B)` (the clear-then-attach protocol
of `createCubes` threaded through its `existingCubes` argument), exactly the
meshes of B are attached after the prior scene content, every mesh of A is
detached with geometry and material disposed, the returned registry is
exactly B, and no mesh of B is attached more than once. -/
theorem replace_twice (s0 : SceneState) (A B : List ℕ)
    (hA : A.Nodup) (hB : B.Nodup)
    (hAs : ∀ a ∈ A, a ∉ s0.children) (hBs : ∀ b ∈ B, b ∉ s0.children)
    (hAB : ∀ a ∈ A, a ∉ B) :
    (createCubesScene (createCubesScene s0 [] A).1
        (createCubesScene s0 [] A).2 B).1.children = s0.children ++ B
    ∧ (createCubesScene (createCubesScene s0 [] A).1
        (createCubesScene s0 [] A).2 B).2 = B
    ∧ (∀ a ∈ A,
        a ∉ (createCubesScene (createCubesScene s0 [] A).1
              (createCubesScene s0 [] A).2 B).1.children
        ∧ a ∈ (createCubesScene (createCubesScene s0 [] A).1
              (createCubesScene s0 [] A).2 B).1.disposedGeometry
        ∧ a ∈ (createCubesScene (createCubesScene s0 [] A).1
              (createCubesScene s0 [] A).2 B).1.disposedMaterial)
    ∧ ∀ b ∈ B,
        ((createCubesScene (createCubesScene s0 [] A).1
            (createCubesScene s0 [] A).2 B).1.children).count b = 1 := by
  have hr : A.foldl retireMesh
      ⟨s0.children ++ A, s0.disposedGeometry, s0.disposedMaterial⟩
      = ⟨s0.children, s0.disposedGeometry ++ A, s0.disposedMaterial ++ A⟩ :=
    foldl_retireMesh A _ s0.children hA hAs rfl
  have hs : B.foldl sceneAdd
      ⟨s0.children, s0.disposedGeometry ++ A, s0.disposedMaterial ++ A⟩
      = ⟨s0.children ++ B, s0.disposedGeometry ++ A, s0.disposedMaterial ++ A⟩ :=
    foldl_sceneAdd B _ hB hBs
  have h1 : createCubesScene s0 [] A
      = (⟨s0.children ++ A, s0.disposedGeometry, s0.disposedMaterial⟩, A) := by
    simp only [createCubesScene, List.foldl_nil]
    rw [foldl_sceneAdd A s0 hA hAs]
  have h2 : createCubesScene (createCubesScene s0 [] A).1
      (createCubesScene s0 [] A).2 B
      = (⟨s0.children ++ B, s0.disposedGeometry ++ A,
          s0.disposedMaterial ++ A⟩, B) := by
    rw [h1]
    simp only [createCubesScene]
    rw [hr, hs]
  rw [h2]
  refine ⟨rfl, rfl, ?_, ?_⟩
  · intro a ha
    refine ⟨?_, by simp [ha], by simp [ha]⟩
    simp only [List.mem_append]
    push_neg
    exact ⟨hAs a ha, hAB a ha⟩
  · intro b hb
    rw [List.count_append, List.count_eq_zero.mpr (hBs b hb),
      List.count_eq_one_of_mem hB hb]

/-- Witness for C5: on a scene holding object 100, replacing with meshes
1, 2 and then with meshes 3, 4 leaves children 100, 3, 4, registry 3, 4,
mesh 1 detached and disposed, and mesh 3 attached exactly once. -/
theorem replace_twice_witness :
    (createCubesScene (createCubesScene ⟨[100], [], []⟩ [] [1, 2]).1
        (createCubesScene ⟨[100], [], []⟩ [] [1, 2]).2 [3, 4]).1.children
      = [100] ++ [3, 4]
    ∧ (createCubesScene (createCubesScene ⟨[100], [], []⟩ [] [1, 2]).1
        (createCubesScene ⟨[100], [], []⟩ [] [1, 2]).2 [3, 4]).2 = [3, 4]
    ∧ (1 ∉ (createCubesScene (createCubesScene ⟨[100], [], []⟩ [] [1, 2]).1
          (createCubesScene ⟨[100], [], []⟩ [] [1, 2]).2 [3, 4]).1.children
        ∧ 1 ∈ (createCubesScene (createCubesScene ⟨[100], [], []⟩ [] [1, 2]).1
          (createCubesScene ⟨[100], [], []⟩ [] [1, 2]).2 [3, 4]).1.disposedGeometry
        ∧ 1 ∈ (createCubesScene (createCubesScene ⟨[100], [], []⟩ [] [1, 2]).1
          (createCubesScene ⟨[100], [], []⟩ [] [1, 2]).2 [3, 4]).1.disposedMaterial)
    ∧ ((createCubesScene (createCubesScene ⟨[100], [], []⟩ [] [1, 2]).1
          (createCubesScene ⟨[100], [], []⟩ [] [1, 2]).2 [3, 4]).1.children).count 3
      = 1 := by
  have h := replace_twice ⟨[100], [], []⟩ [1, 2] [3, 4]
    (by decide) (by decide) (by decide) (by decide) (by decide)
  exact ⟨h.1, h.2.1, h.2.2.1 1 (by decide), h.2.2.2 3 (by decide)⟩

/-- The identity transform fixes every point. -/
theorem Affine.apply_id (p : Vec3) : idAffine.apply p = p := by
  obtain ⟨x, y, z⟩ := p
  simp [Affine.apply, idAffine]

/-- Applying the identity world matrix to a non-inverted box returns the
box itself. -/
theorem applyAffine_id (ax ay az bx b2 bz : ℝ)
    (hx : ax ≤ bx) (hy : ay ≤ b2) (hz : az ≤ bz) :
    Box3.applyAffine idAffine ⟨⟨ax, ay, az⟩, ⟨bx, b2, bz⟩⟩
      = ⟨⟨ax, ay, az⟩, ⟨bx, b2, bz⟩⟩ := by
  have hne : ¬ Box3.isEmpty ⟨⟨ax, ay, az⟩, ⟨bx, b2, bz⟩⟩ := by
    simp only [Box3.isEmpty, not_or, not_lt]
    exact ⟨hx, hy, hz⟩
  rw [Box3.applyAffine, if_neg hne]
  simp only [Box3.corners, List.map_cons, List.map_nil, Affine.apply_id,
    List.foldl_cons, List.foldl_nil, Box3.expandByPoint]
  simp [min_self, max_self, min_eq_left hx, min_eq_left hy, min_eq_left hz,
    max_eq_right hx, max_eq_right hy, max_eq_right hz, hx, hy, hz]

/-- C6 (amended): `calculateSceneBounds` equals the union of the
world-transformed geometry boxes of ALL meshes that carry geometry —
decoration meshes such as a ground plane included — and is `none` exactly
when that list is empty (no mesh with geometry exists). -/
theorem calculateSceneBounds_unions_every_mesh (scene : List SceneObject) :
    calculateSceneBounds scene = unionBoxes (scene.filterMap worldBox) := by
  have aux : ∀ (l : List SceneObject) (b : Box3),
      l.foldl boundsStep (some b)
        = some ((l.filterMap worldBox).foldl Box3.union b) := by
    intro l
    induction l with
    | nil => intro b; rfl
    | cons o rest ih =>
      intro b
      rcases hw : worldBox o with _ | wb
      · rw [List.foldl_cons]
        have hstep : boundsStep (some b) o = some b := by
          simp [boundsStep, hw]
        rw [hstep, ih, List.filterMap_cons_none hw]
      · rw [List.foldl_cons]
        have hstep : boundsStep (some b) o = some (b.union wb) := by
          simp [boundsStep, hw]
        rw [hstep, ih, List.filterMap_cons_some hw, List.foldl_cons]
  induction scene with
  | nil => rfl
  | cons o rest ih =>
    rcases hw : worldBox o with _ | wb
    · unfold calculateSceneBounds at ih ⊢
      rw [List.foldl_cons]
      have hstep : boundsStep none o = none := by
        simp [boundsStep, hw]
      rw [hstep, ih, List.filterMap_cons_none hw]
    · unfold calculateSceneBounds
      rw [List.foldl_cons]
      have hstep : boundsStep none o = some wb := by
        simp [boundsStep, hw]
      rw [hstep, aux, List.filterMap_cons_some hw]
      rfl

/-- The generated solid of the C6 scenario: a unit-ish cube around the
origin. -/
def cubeObject : SceneObject :=
  .mesh false (some ⟨⟨-1, -1, -1⟩, ⟨1, 1, 1⟩⟩) idAffine

/-- A reference ground plane: a 500 by 500 `THREE.Mesh` with plane geometry,
marked as decoration. -/
def groundPlaneObject : SceneObject :=
  .mesh true (some ⟨⟨-250, -250, 0⟩, ⟨250, 250, 0⟩⟩) idAffine

/-- Counterexample to C6: on a scene holding one solid and a reference
ground plane, `calculateSceneBounds` includes the plane — its result
differs from the bounds over renderable (non-decoration) solids only, so
helper meshes are NOT ignored. -/
theorem calculateSceneBounds_includes_ground_plane :
    calculateSceneBounds [cubeObject, groundPlaneObject]
      = some ⟨⟨-250, -250, -1⟩, ⟨250, 250, 1⟩⟩
    ∧ specSceneBounds [cubeObject, groundPlaneObject]
      = some ⟨⟨-1, -1, -1⟩, ⟨1, 1, 1⟩⟩
    ∧ calculateSceneBounds [cubeObject, groundPlaneObject]
      ≠ specSceneBounds [cubeObject, groundPlaneObject] := by
  have hcube : Box3.applyAffine idAffine ⟨⟨-1, -1, -1⟩, ⟨1, 1, 1⟩⟩
      = ⟨⟨-1, -1, -1⟩, ⟨1, 1, 1⟩⟩ :=
    applyAffine_id (-1) (-1) (-1) 1 1 1 (by norm_num) (by norm_num) (by norm_num)
  have hplane : Box3.applyAffine idAffine ⟨⟨-250, -250, 0⟩, ⟨250, 250, 0⟩⟩
      = ⟨⟨-250, -250, 0⟩, ⟨250, 250, 0⟩⟩ :=
    applyAffine_id (-250) (-250) 0 250 250 0 (by norm_num) (by norm_num)
      (by norm_num)
  have h1 : calculateSceneBounds [cubeObject, groundPlaneObject]
      = some ⟨⟨-250, -250, -1⟩, ⟨250, 250, 1⟩⟩ := by
    simp only [calculateSceneBounds, List.foldl_cons, List.foldl_nil,
      boundsStep, worldBox, cubeObject, groundPlaneObject, hcube, hplane,
      Box3.union]
    norm_num
  have h2 : specSceneBounds [cubeObject, groundPlaneObject]
      = some ⟨⟨-1, -1, -1⟩, ⟨1, 1, 1⟩⟩ := by
    simp only [specSceneBounds, List.foldl_cons, List.foldl_nil, cubeObject,
      groundPlaneObject, hcube]
  refine ⟨h1, h2, ?_⟩
  rw [h1, h2]
  simp only [ne_eq, Option.some.injEq, Box3.mk.injEq, Vec3.mk.injEq]
  norm_num

/-- C4: for a present, non-empty, non-degenerate bounding volume, the
static fit puts the camera at `center + normalize((1, 0.8, 1)) * d` with
`d = (maxDim/2) / tan(fovRad/2) * padding`; padding 1 gives exactly
`(maxDim/2) / tan(fovRad/2)`, doubling the padding doubles the distance,
the camera looks at the center, and the orbit-control target is the
center. -/
theorem zoomToFit_places_camera (cam : PCamera) (ctrl : OControls)
    (scene : List SceneObject) (p : ℝ) (b : Box3)
    (h1 : calculateSceneBounds scene = some b) (h2 : ¬ b.isEmpty)
    (_hnd : b.getSize ≠ (⟨0, 0, 0⟩ : Vec3)) :
    (zoomToFitGeometry cam ctrl scene p).1.position
      = vadd b.getCenter (vsmul
          (max b.getSize.x (max b.getSize.y b.getSize.z) / 2
            / Real.tan (cam.fov * (Real.pi / 180) / 2) * p)
          (vnormalize ⟨1, 4/5, 1⟩))
    ∧ max b.getSize.x (max b.getSize.y b.getSize.z) / 2
          / Real.tan (cam.fov * (Real.pi / 180) / 2) * 1
        = max b.getSize.x (max b.getSize.y b.getSize.z) / 2
          / Real.tan (cam.fov * (Real.pi / 180) / 2)
    ∧ max b.getSize.x (max b.getSize.y b.getSize.z) / 2
          / Real.tan (cam.fov * (Real.pi / 180) / 2) * (2 * p)
        = 2 * (max b.getSize.x (max b.getSize.y b.getSize.z) / 2
          / Real.tan (cam.fov * (Real.pi / 180) / 2) * p)
    ∧ (zoomToFitGeometry cam ctrl scene p).1.lookTarget = b.getCenter
    ∧ (zoomToFitGeometry cam ctrl scene p).2.target = b.getCenter := by
  have hz : zoomToFitGeometry cam ctrl scene p
      = ({ cam with
            position := vadd b.getCenter (vsmul
              (max b.getSize.x (max b.getSize.y b.getSize.z) / 2
                / Real.tan (cam.fov * (Real.pi / 180) / 2) * p)
              (vnormalize ⟨1, 4/5, 1⟩)),
            lookTarget := b.getCenter },
         { ctrl with target := b.getCenter }) := by
    simp only [zoomToFitGeometry, h1]
    rw [if_neg h2]
    rfl
  rw [hz]
  exact ⟨rfl, mul_one _, by ring, rfl, rfl⟩

/-- The C4 witness solid: an axis-aligned box from the origin to
(2, 2, 2) under the identity world matrix. -/
def fitBoxObject : SceneObject := .mesh false (some ⟨⟨0, 0, 0⟩, ⟨2, 2, 2⟩⟩) idAffine

/-- A camera with a 90-degree field of view away from the box. -/
def fitCamera : PCamera := ⟨⟨9, 9, 9⟩, ⟨0, 0, 0⟩, 90⟩

/-- Controls with an arbitrary prior target. -/
def fitControls : OControls := ⟨⟨1, 1, 1⟩⟩

/-- Witness for C4 at the concrete box scene with padding 1. -/
theorem zoomToFit_places_camera_witness :
    (zoomToFitGeometry fitCamera fitControls [fitBoxObject] 1).1.position
      = vadd (Box3.getCenter ⟨⟨0, 0, 0⟩, ⟨2, 2, 2⟩⟩) (vsmul
          (max (Box3.getSize ⟨⟨0, 0, 0⟩, ⟨2, 2, 2⟩⟩).x
              (max (Box3.getSize ⟨⟨0, 0, 0⟩, ⟨2, 2, 2⟩⟩).y
                (Box3.getSize ⟨⟨0, 0, 0⟩, ⟨2, 2, 2⟩⟩).z) / 2
            / Real.tan (fitCamera.fov * (Real.pi / 180) / 2) * 1)
          (vnormalize ⟨1, 4/5, 1⟩))
    ∧ max (Box3.getSize ⟨⟨0, 0, 0⟩, ⟨2, 2, 2⟩⟩).x
          (max (Box3.getSize ⟨⟨0, 0, 0⟩, ⟨2, 2, 2⟩⟩).y
            (Box3.getSize ⟨⟨0, 0, 0⟩, ⟨2, 2, 2⟩⟩).z) / 2
          / Real.tan (fitCamera.fov * (Real.pi / 180) / 2) * 1
        = max (Box3.getSize ⟨⟨0, 0, 0⟩, ⟨2, 2, 2⟩⟩).x
          (max (Box3.getSize ⟨⟨0, 0, 0⟩, ⟨2, 2, 2⟩⟩).y
            (Box3.getSize ⟨⟨0, 0, 0⟩, ⟨2, 2, 2⟩⟩).z) / 2
          / Real.tan (fitCamera.fov * (Real.pi / 180) / 2)
    ∧ max (Box3.getSize ⟨⟨0, 0, 0⟩, ⟨2, 2, 2⟩⟩).x
          (max (Box3.getSize ⟨⟨0, 0, 0⟩, ⟨2, 2, 2⟩⟩).y
            (Box3.getSize ⟨⟨0, 0, 0⟩, ⟨2, 2, 2⟩⟩).z) / 2
          / Real.tan (fitCamera.fov * (Real.pi / 180) / 2) * (2 * 1)
        = 2 * (max (Box3.getSize ⟨⟨0, 0, 0⟩, ⟨2, 2, 2⟩⟩).x
          (max (Box3.getSize ⟨⟨0, 0, 0⟩, ⟨2, 2, 2⟩⟩).y
            (Box3.getSize ⟨⟨0, 0, 0⟩, ⟨2, 2, 2⟩⟩).z) / 2
          / Real.tan (fitCamera.fov * (Real.pi / 180) / 2) * 1)
    ∧ (zoomToFitGeometry fitCamera fitControls [fitBoxObject] 1).1.lookTarget
        = Box3.getCenter ⟨⟨0, 0, 0⟩, ⟨2, 2, 2⟩⟩
    ∧ (zoomToFitGeometry fitCamera fitControls [fitBoxObject] 1).2.target
        = Box3.getCenter ⟨⟨0, 0, 0⟩, ⟨2, 2, 2⟩⟩ := by
  have h1 : calculateSceneBounds [fitBoxObject] = some ⟨⟨0, 0, 0⟩, ⟨2, 2, 2⟩⟩ := by
    simp only [calculateSceneBounds, List.foldl_cons, List.foldl_nil,
      boundsStep, worldBox, fitBoxObject,
      applyAffine_id 0 0 0 2 2 2 (by norm_num) (by norm_num) (by norm_num)]
  exact zoomToFit_places_camera fitCamera fitControls [fitBoxObject] 1
    ⟨⟨0, 0, 0⟩, ⟨2, 2, 2⟩⟩ h1 (by norm_num [Box3.isEmpty])
    (by norm_num [Box3.getSize, Box3.isEmpty, vsub, Vec3.mk.injEq])

/-- C8 (amended): the static fit is a no-op exactly on the code's guard —
when no mesh with geometry exists (`null` bounds) or the accumulated box is
inverted/empty; camera and controls are returned unchanged then. -/
theorem zoomToFit_noop_on_missing_or_empty_bounds (cam : PCamera)
    (ctrl : OControls) (scene : List SceneObject) (p : ℝ)
    (h : calculateSceneBounds scene = none
        ∨ ∃ b, calculateSceneBounds scene = some b ∧ b.isEmpty) :
    zoomToFitGeometry cam ctrl scene p = (cam, ctrl) := by
  rcases h with h | ⟨b, hb, he⟩
  · simp only [zoomToFitGeometry, h]
  · simp only [zoomToFitGeometry, hb]
    rw [if_pos he]

/-- A degenerate solid: its bounding box is the single point (5, 5, 5),
zero-sized in all axes but not empty in the `Box3.isEmpty` sense. -/
def pointObject : SceneObject := .mesh false (some ⟨⟨5, 5, 5⟩, ⟨5, 5, 5⟩⟩) idAffine

/-- The camera prior to the degenerate fit. -/
def priorCamera : PCamera := ⟨⟨0, 0, 0⟩, ⟨0, 0, 0⟩, 75⟩

/-- The controls prior to the degenerate fit. -/
def priorControls : OControls := ⟨⟨0, 0, 0⟩⟩

/-- `multiplyScalar(0)` gives the zero vector. -/
theorem vsmul_zero_vec (a : Vec3) : vsmul 0 a = ⟨0, 0, 0⟩ := by
  simp [vsmul]

/-- Adding the zero vector changes nothing. -/
theorem vadd_zero_vec (a : Vec3) : vadd a ⟨0, 0, 0⟩ = a := by
  obtain ⟨x, y, z⟩ := a
  simp [vadd]

/-- Counterexample to C8: a bounding volume that is zero-size in all axes
(degenerate) is NOT a no-op for the static fit — the camera is moved to the
volume's center at distance 0 and the target re-aimed, although the claim
requires position and target to stay unchanged. -/
theorem degenerate_bounds_move_camera :
    Box3.getSize ⟨⟨5, 5, 5⟩, ⟨5, 5, 5⟩⟩ = (⟨0, 0, 0⟩ : Vec3)
    ∧ (zoomToFitGeometry priorCamera priorControls [pointObject] (13/10)).1.position
        = (⟨5, 5, 5⟩ : Vec3)
    ∧ (zoomToFitGeometry priorCamera priorControls [pointObject] (13/10)).2.target
        = (⟨5, 5, 5⟩ : Vec3)
    ∧ priorCamera.position ≠ (⟨5, 5, 5⟩ : Vec3)
    ∧ priorControls.target ≠ (⟨5, 5, 5⟩ : Vec3) := by
  have hne : ¬ Box3.isEmpty ⟨⟨5, 5, 5⟩, ⟨5, 5, 5⟩⟩ := by
    norm_num [Box3.isEmpty]
  have hsize : Box3.getSize ⟨⟨5, 5, 5⟩, ⟨5, 5, 5⟩⟩ = (⟨0, 0, 0⟩ : Vec3) := by
    rw [Box3.getSize, if_neg hne]
    norm_num [vsub]
  have hcenter : Box3.getCenter ⟨⟨5, 5, 5⟩, ⟨5, 5, 5⟩⟩ = (⟨5, 5, 5⟩ : Vec3) := by
    rw [Box3.getCenter, if_neg hne]
    norm_num [vadd, vsmul]
  have hb : calculateSceneBounds [pointObject] = some ⟨⟨5, 5, 5⟩, ⟨5, 5, 5⟩⟩ := by
    simp only [calculateSceneBounds, List.foldl_cons, List.foldl_nil,
      boundsStep, worldBox, pointObject,
      applyAffine_id 5 5 5 5 5 5 le_rfl le_rfl le_rfl]
  have hfit : zoomToFitGeometry priorCamera priorControls [pointObject] (13/10)
      = ({ priorCamera with position := ⟨5, 5, 5⟩, lookTarget := ⟨5, 5, 5⟩ },
         { priorControls with target := ⟨5, 5, 5⟩ }) := by
    simp only [zoomToFitGeometry, hb]
    rw [if_neg hne]
    simp only [hsize, hcenter]
    norm_num [vsmul_zero_vec, vadd_zero_vec, controlsUpdate]
  refine ⟨hsize, by rw [hfit], by rw [hfit], ?_, ?_⟩
  · simp only [priorCamera, ne_eq, Vec3.mk.injEq]
    norm_num
  · simp only [priorControls, ne_eq, Vec3.mk.injEq]
    norm_num

/-- Witness for the amended C8 on a scene with no mesh geometry. -/
theorem zoomToFit_noop_witness :
    zoomToFitGeometry priorCamera priorControls [SceneObject.nonMesh] (13/10)
      = (priorCamera, priorControls) :=
  zoomToFit_noop_on_missing_or_empty_bounds priorCamera priorControls
    [SceneObject.nonMesh] (13/10) (Or.inl rfl)

/-- Interpolation at parameter 1 (after the cubic ease-out of a completed
animation) lands exactly on the target vector. -/
theorem vlerp_completed (a c : Vec3) : vlerp a c (1 - (1 - 1) ^ 3) = c := by
  obtain ⟨ax, ay, az⟩ := a
  obtain ⟨cx, cy, cz⟩ := c
  simp only [vlerp, vadd, vsub, vsmul, Vec3.mk.injEq]
  refine ⟨by ring, by ring, by ring⟩

/-- C9: at completion (progress 1) the animated fit's camera position and
orbit-control target are exactly the static fit's result for the same
camera, scene and padding. -/
theorem animate_completion_matches_static (cam : PCamera) (ctrl : OControls)
    (scene : List SceneObject) (p : ℝ) (b : Box3)
    (h1 : calculateSceneBounds scene = some b) (h2 : ¬ b.isEmpty) :
    animateZoomToFitAt cam ctrl scene p 1
      = some (zoomToFitGeometry cam ctrl scene p) := by
  simp only [animateZoomToFitAt, zoomToFitGeometry, h1]
  rw [if_neg h2, if_neg h2]
  rw [vlerp_completed, vlerp_completed]
  rfl

/-- Witness for C9 at the concrete cube scene. -/
theorem animate_completion_witness :
    animateZoomToFitAt priorCamera priorControls [cubeObject] 1 1
      = some (zoomToFitGeometry priorCamera priorControls [cubeObject] 1) := by
  have h1 : calculateSceneBounds [cubeObject] = some ⟨⟨-1, -1, -1⟩, ⟨1, 1, 1⟩⟩ := by
    simp only [calculateSceneBounds, List.foldl_cons, List.foldl_nil,
      boundsStep, worldBox, cubeObject,
      applyAffine_id (-1) (-1) (-1) 1 1 1 (by norm_num) (by norm_num) (by norm_num)]
  exact animate_completion_matches_static priorCamera priorControls [cubeObject]
    1 ⟨⟨-1, -1, -1⟩, ⟨1, 1, 1⟩⟩ h1 (by norm_num [Box3.isEmpty])

end Viewer


